import Mathlib

/-!
Shallow embedding of the Layer-2 complaint-priority classification pipeline
(src/app/backend/layer2/routes.py) of the SEBL-Complaint repository.

Modelling conventions:
* Python machine integers are unbounded, so scores are Lean Int and counters Nat.
* The priority score is a Python float produced by round(x, 2); it is modelled as
  an exact rational together with a round-half-to-even rounding of x * 100
  (Python's round uses banker's rounding; binary floating point representation
  effects are elided since all claim-relevant values are exact).
* The external LLM call (genai generate_content plus the prompt text built by
  get_classification_prompt) is an opaque capability.  A run consumes an oracle
  mapping the complaint index and the extra feedback suffix appended to the
  prompt to the upstream outcome: the call raising an exception that the inner
  except clause does not catch, a response whose text is not valid JSON, or a
  parsed JSON value.  The code-fence stripping of lines 126-132 is folded into
  this abstraction.
* JSON numbers are modelled as integers (every claim-relevant score value is
  integral); nested arrays/objects appearing as field values are collapsed into
  a single constructor since the code either coerces them with int() (raising
  TypeError) or stores them opaquely.
* datetime.now() values are abstract Nat ticks supplied as parameters.
* The md5 hexdigest of the cache-key string is modelled as the string itself:
  every claim depends only on the digest being a deterministic function of the
  combined string, never on its length or collision behaviour.
-/

/-- Python exception kinds that can arise on the modelled code paths. -/
inductive PyErr
  /-- json.loads failed on the response text -/
  | jsonDecodeError
  /-- subscripting a dict with a missing key -/
  | keyError
  /-- int() applied to a non-numeric string -/
  | valueError
  /-- int() applied to None or a container -/
  | typeError
  /-- calling .get on a non-dict -/
  | attributeError
  /-- the generate_content call itself failed (network/API error) -/
  | apiError
deriving DecidableEq, Repr

/-- A JSON value appearing as a field of the upstream response object.
Numbers are modelled as integers; nested arrays/objects are collapsed to
a single opaque constructor (see the header comment). -/
inductive JPrim
  | pnull
  | pint (n : Int)
  | pstr (s : String)
  /-- a nested array or object -/
  | pother
deriving DecidableEq, Repr

/-- The top-level parsed JSON value of an upstream response. -/
inductive JTop
  /-- a JSON object, as an association list of fields (json.loads keeps the
  last occurrence of a duplicated key, so lookups scan from the right) -/
  | tobj (fields : List (String × JPrim))
  /-- valid JSON that is not an object (list or scalar): calling .get on it
  raises AttributeError -/
  | tother
deriving DecidableEq, Repr

/-- Outcome of one call to the external classification capability. -/
inductive Upstream
  /-- generate_content (or reading response.text) raised an exception that is
  not caught by the inner except clause -/
  | raises
  /-- the response text is not valid JSON: json.loads raises JSONDecodeError -/
  | malformed
  /-- the response text parsed into a JSON value -/
  | parsed (v : JTop)
deriving DecidableEq, Repr

/-- dict lookup on the response object; json.loads keeps the last binding of a
duplicated key, hence the reversed scan. -/
def getField (fields : List (String × JPrim)) (k : String) : Option JPrim :=
  (fields.reverse.find? (fun p => p.1 == k)).map (fun p => p.2)

/-- Decimal value of a digit string; none when empty or non-numeric. -/
def digitsToNat (l : List Char) : Option Nat :=
  if l = [] then none
  else l.foldl (fun acc? c => acc?.bind
    (fun acc => if c.isDigit then some (acc * 10 + (c.toNat - 48)) else none))
    (some 0)

/-- Python int() applied to a string: an optional minus sign followed by
decimal digits (further Python liberties such as surrounding whitespace or
underscores are elided; no claim involves them). -/
def pyToInt (s : String) : Option Int :=
  match s.data with
  | '-' :: rest => (digitsToNat rest).map (fun n => -(n : Int))
  | l => (digitsToNat l).map (fun n => (n : Int))

/-- Python int() coercion of a JSON field value.  int of a numeric string
succeeds, of a non-numeric string raises ValueError, of None or a container
raises TypeError. -/
def pyIntOfPrim : JPrim → Except PyErr Int
  | .pint n => .ok n
  | .pstr s => match pyToInt s with
      | some n => .ok n
      | none => .error .valueError
  | .pnull => .error .typeError
  | .pother => .error .typeError

/-- max(1, min(5, x)) from routes.py lines 137-140. -/
def clamp (x : Int) : Int := max 1 (min 5 x)

/-- The classification dict as stored in the cache and consumed by the result
row construction.  The four score keys are always present after the clamping
assignments; risk_code / risk_description are present only when the upstream
object contained them (subscripting them later raises KeyError otherwise). -/
structure ClassificationResult where
  risk_code : Option JPrim
  risk_description : Option JPrim
  impact_score : Int
  urgency_score : Int
  frequency_score : Int
  controllability_score : Int
deriving DecidableEq, Repr

/-- The fixed fallback dict returned when parsing the response fails
(routes.py lines 149-156 and 270-277). -/
def fallbackResult : ClassificationResult :=
  { risk_code := some (.pstr "ER-03")
    risk_description := some (.pstr "Unable to classify")
    impact_score := 3
    urgency_score := 3
    frequency_score := 3
    controllability_score := 3 }

/-- Lines 134-140 applied to an already json.loads-ed value: read the four
score fields with dict.get default 3, coerce each with int(), clamp each to
[1,5]; a non-object response raises AttributeError at the first .get.
The four assignments run in source order, so the first failing coercion
determines the exception. -/
def parseClassification (v : JTop) : Except PyErr ClassificationResult :=
  match v with
  | .tother => .error .attributeError
  | .tobj fields =>
    match pyIntOfPrim ((getField fields "impact_score").getD (.pint 3)) with
    | .error e => .error e
    | .ok i =>
      match pyIntOfPrim ((getField fields "urgency_score").getD (.pint 3)) with
      | .error e => .error e
      | .ok u =>
        match pyIntOfPrim ((getField fields "frequency_score").getD (.pint 3)) with
        | .error e => .error e
        | .ok f =>
          match pyIntOfPrim ((getField fields "controllability_score").getD (.pint 3)) with
          | .error e => .error e
          | .ok c =>
            .ok { risk_code := getField fields "risk_code"
                  risk_description := getField fields "risk_description"
                  impact_score := clamp i
                  urgency_score := clamp u
                  frequency_score := clamp f
                  controllability_score := clamp c }

/-- Whether the except clause of lines 147 / 269 catches the exception:
except (json.JSONDecodeError, KeyError, ValueError). -/
def caught : PyErr → Bool
  | .jsonDecodeError => true
  | .keyError => true
  | .valueError => true
  | _ => false

/-- What the shared try body of classify_complaint / reprocess_with_feedback
produces from one upstream outcome, before any caching: either an exception
that propagates, or a result together with a flag recording whether it came
from a successfully parsed response (only such results are cached by
classify_complaint; the fallback is produced by the except clause, after the
cache write was skipped). -/
def respOutcomeC (up : Upstream) : Except PyErr (ClassificationResult × Bool) :=
  match up with
  | .raises => .error .apiError
  | .malformed => .ok (fallbackResult, false)
  | .parsed v =>
    match parseClassification v with
    | .ok r => .ok (r, true)
    | .error e => if caught e then .ok (fallbackResult, false) else .error e

/-- A row of a caller-supplied risk table, as produced by csv.DictReader. -/
abbrev RiskRow : Type := List (String × String)

/-- The risk table attached to a session. -/
abbrev RiskTable : Type := List RiskRow

/-- The process-wide classification_cache dict, as an association list whose
leftmost binding of a key is current. -/
abbrev Cache : Type := List (String × ClassificationResult)

/-- Empty cache. -/
def emptyCache : Cache := []

/-- dict lookup. -/
def cacheLookup : Cache → String → Option ClassificationResult
  | [], _ => none
  | (k, v) :: rest, key => if k = key then some v else cacheLookup rest key

/-- dict assignment classification_cache[key] = result. -/
def cacheInsert (c : Cache) (key : String) (r : ClassificationResult) : Cache :=
  (key, r) :: c

/-- del classification_cache[key] (all bindings of the key are removed; a
Python dict holds at most one). -/
def cacheErase : Cache → String → Cache
  | [], _ => []
  | (k, v) :: rest, key =>
    if k = key then cacheErase rest key else (k, v) :: cacheErase rest key

/-- JSON string quoting as used by json.dumps; escaping of special characters
inside the string is elided (claim-relevant inputs contain none). -/
def jsonQuote (s : String) : String := "\"" ++ s ++ "\""

/-- One key/value pair rendered with json.dumps default separators. -/
def dumpsField (p : String × String) : String :=
  jsonQuote p.1 ++ ": " ++ jsonQuote p.2

/-- Insertion into a key-sorted list of fields. -/
def insertByKey (p : String × String) : List (String × String) → List (String × String)
  | [] => [p]
  | q :: qs => if p.1 ≤ q.1 then p :: q :: qs else q :: insertByKey p qs

/-- Sort the fields of one row by key, as json.dumps(..., sort_keys=True). -/
def sortByKey (l : List (String × String)) : List (String × String) :=
  l.foldr insertByKey []

/-- json.dumps of one risk-table row with sort_keys=True. -/
def dumpsRow (row : RiskRow) : String :=
  "\x7b" ++ String.intercalate ", " ((sortByKey row).map dumpsField) ++ "\x7d"

/-- json.dumps of the full risk table with sort_keys=True. -/
def dumpsTable (rt : RiskTable) : String :=
  "[" ++ String.intercalate ", " (rt.map dumpsRow) ++ "]"

/-- get_cache_key (routes.py lines 99-104): the combined string
complaint | dumps(risk_table, sort_keys=True); the source feeds it through
md5 hexdigest, modelled as the combined string itself (see header). -/
def getCacheKey (complaint : String) (rt : RiskTable) : String :=
  complaint ++ "|" ++ dumpsTable rt

/-- classify_complaint (routes.py lines 106-156): cache lookup first; on a
miss, call the capability and parse; a successfully parsed result is written
to the cache; parse failures caught by the except clause yield the fallback
without a cache write; other exceptions propagate.  The returned Bool records
whether the external capability was invoked. -/
def classify_complaint (cache : Cache) (complaint : String) (rt : RiskTable)
    (up : Upstream) : Except PyErr (ClassificationResult × Cache × Bool) :=
  let key := getCacheKey complaint rt
  match cacheLookup cache key with
  | some r => .ok (r, cache, false)
  | none =>
    match respOutcomeC up with
    | .error e => .error e
    | .ok (r, parsedLive) =>
      .ok (r, if parsedLive then cacheInsert cache key r else cache, true)

/-- Round half to even on an exact rational (Python's round on a float whose
value is exact; see header).  The floor is computed as num ediv den, which is
the mathematical floor since the denominator is positive. -/
def roundHalfEven (q : ℚ) : ℤ :=
  let f : ℤ := q.num.ediv (q.den : ℤ)
  if q - (f : ℚ) < 1/2 then f
  else if 1/2 < q - (f : ℚ) then f + 1
  else if f % 2 = 0 then f else f + 1

/-- round(x, 2) on an exact rational. -/
def round2 (q : ℚ) : ℚ := (roundHalfEven (q * 100) : ℚ) / 100

/-- calculate_priority (routes.py lines 158-174). -/
def calculate_priority (impact urgency frequency controllability : ℤ) :
    ℚ × String :=
  let priority_score : ℚ :=
    round2 (((impact * urgency * frequency : ℤ) : ℚ) / (controllability : ℚ))
  let priority_level : String :=
    if 60 ≤ priority_score then "P1 - Critical"
    else if 40 ≤ priority_score then "P2 - High"
    else if 20 ≤ priority_score then "P3 - Medium"
    else "P4 - Low"
  (priority_score, priority_level)

/-- One element of session.results (routes.py lines 196-206 / 288-298). -/
structure ResultRow where
  complaint : String
  risk_code : JPrim
  risk_description : JPrim
  impact_score : Int
  urgency_score : Int
  frequency_score : Int
  controllability_score : Int
  priority_score : ℚ
  priority_level : String
deriving DecidableEq, Repr

/-- Build one result row from a classification dict: subscripting risk_code /
risk_description raises KeyError when the key is absent (the dict literal is
evaluated left to right, so this fires before anything is appended). -/
def buildRow (complaint : String) (r : ClassificationResult) :
    Except PyErr ResultRow :=
  match r.risk_code, r.risk_description with
  | some rc, some rd =>
    let pr := calculate_priority r.impact_score r.urgency_score
      r.frequency_score r.controllability_score
    .ok { complaint := complaint
          risk_code := rc
          risk_description := rd
          impact_score := r.impact_score
          urgency_score := r.urgency_score
          frequency_score := r.frequency_score
          controllability_score := r.controllability_score
          priority_score := pr.1
          priority_level := pr.2 }
  | _, _ => .error .keyError

/-- The ProcessingSession attributes (routes.py lines 70-82); the genai model
handle is not part of the data model. -/
structure Session where
  session_id : String
  created_at : Nat
  complaints : List String
  risk_table : RiskTable
  results : List ResultRow
  status : String
  total_rows : Nat
  processed_rows : Nat
  start_time : Option Nat
  end_time : Option Nat
  error_message : Option PyErr
deriving DecidableEq, Repr

/-- __init__ of ProcessingSession. -/
def initSession (sid : String) (t : Nat) : Session :=
  { session_id := sid
    created_at := t
    complaints := []
    risk_table := []
    results := []
    status := "pending"
    total_rows := 0
    processed_rows := 0
    start_time := none
    end_time := none
    error_message := none }

/-- The run prologue shared verbatim by process_complaints (lines 176-180) and
reprocess_with_feedback (lines 224-226): set status, record the start
timestamp, clear the results.  Nothing else is touched. -/
def startRun (s : Session) (t0 : Nat) : Session :=
  { s with status := "processing", start_time := some t0, results := [] }

/-- The feedback context appended to every per-complaint prompt during a
feedback run (routes.py lines 229-230). -/
def feedbackContext (feedback : String) : String :=
  "\nUser Feedback: " ++ feedback ++ "\n" ++
    "Please use this feedback to adjust your scoring and classifications when re-analyzing the complaints."

/-- The external capability as consumed by a run: complaint index and the
extra suffix appended to the prompt determine the upstream outcome. -/
abbrev LLM : Type := Nat → String → Upstream

/-- Result of the per-complaint loop of a run. -/
structure LoopOut where
  rows : List ResultRow
  processed : Nat
  cache : Cache
  err : Option PyErr
deriving DecidableEq, Repr

/-- The loop body of process_complaints (lines 182-212): classify (with cache),
compute priority, build and append the row, set processed_rows to the
enumerate index plus one.  An uncaught exception stops the loop with the
accumulated state intact. -/
def processLoop (rt : RiskTable) (o : Nat → Upstream) :
    List String → Nat → Cache → List ResultRow → Nat → LoopOut
  | [], _, cache, rows, p => ⟨rows, p, cache, none⟩
  | c :: rest, i, cache, rows, p =>
    match classify_complaint cache c rt (o i) with
    | .error e => ⟨rows, p, cache, some e⟩
    | .ok (r, cache1, _) =>
      match buildRow c r with
      | .error e => ⟨rows, p, cache1, some e⟩
      | .ok row => processLoop rt o rest (i + 1) cache1 (rows ++ [row]) (i + 1)

/-- The loop body of reprocess_with_feedback (lines 233-304): delete the cache
entry for the complaint, always invoke the capability, parse with the same
inner try/except, build and append the row.  Nothing is ever written back to
the cache. -/
def reprocessLoop (rt : RiskTable) (o : Nat → Upstream) :
    List String → Nat → Cache → List ResultRow → Nat → LoopOut
  | [], _, cache, rows, p => ⟨rows, p, cache, none⟩
  | c :: rest, i, cache, rows, p =>
    let cache1 := cacheErase cache (getCacheKey c rt)
    match respOutcomeC (o i) with
    | .error e => ⟨rows, p, cache1, some e⟩
    | .ok (r, _) =>
      match buildRow c r with
      | .error e => ⟨rows, p, cache1, some e⟩
      | .ok row => reprocessLoop rt o rest (i + 1) cache1 (rows ++ [row]) (i + 1)

/-- The run epilogue (lines 214-220 / 306-312): completed with an end
timestamp on success; error status, captured message and end timestamp on an
uncaught exception.  The rows and counter reflect the loop state either way
(the source mutates them in place; error_message is left untouched on
success, exactly as in the source). -/
def finishRun (s1 : Session) (t1 : Nat) (out : LoopOut) : Session :=
  match out.err with
  | none =>
    { s1 with results := out.rows, processed_rows := out.processed,
              status := "completed", end_time := some t1 }
  | some e =>
    { s1 with results := out.rows, processed_rows := out.processed,
              status := "error", end_time := some t1,
              error_message := some e }

/-- process_complaints (routes.py lines 176-220), big-step over the whole
run: t0 / t1 are the observed clock values at start and end. -/
def process_complaints (s : Session) (cache : Cache) (oracle : LLM)
    (t0 t1 : Nat) : Session × Cache :=
  let s1 := startRun s t0
  let out := processLoop s.risk_table (fun i => oracle i "") s.complaints 0
    cache s1.results s1.processed_rows
  (finishRun s1 t1 out, out.cache)

/-- reprocess_with_feedback (routes.py lines 222-312), big-step. -/
def reprocess_with_feedback (s : Session) (feedback : String) (cache : Cache)
    (oracle : LLM) (t0 t1 : Nat) : Session × Cache :=
  let s1 := startRun s t0
  let out := reprocessLoop s.risk_table
    (fun i => oracle i (feedbackContext feedback)) s.complaints 0
    cache s1.results s1.processed_rows
  (finishRun s1 t1 out, out.cache)

/-- Strip leading and trailing whitespace from a character list. -/
def stripChars (l : List Char) : List Char :=
  ((l.dropWhile Char.isWhitespace).reverse.dropWhile Char.isWhitespace).reverse

/-- Python str.strip(): drop leading and trailing whitespace. -/
def pyStrip (s : String) : String := ⟨stripChars s.data⟩

/-- Outcome of an admission-checking route handler. -/
inductive Handler
  | rejected (code : Nat) (detail : String)
  | accepted
deriving DecidableEq, Repr

/-- start_processing (routes.py lines 404-431): admission checks in source
order; on success the background run is launched. -/
def start_processing (s : Option Session) : Handler :=
  match s with
  | none => .rejected 404 "Session not found"
  | some s =>
    if s.status = "processing" then
      .rejected 400 "Processing already in progress"
    else if s.complaints = [] then .rejected 400 "No complaints to process"
    else if s.risk_table = [] then .rejected 400 "No risk table loaded"
    else .accepted

/-- regenerate_results (routes.py lines 525-549): admission checks in source
order — note there is no check of session.status. -/
def regenerate_results (s : Option Session) (feedback : String) : Handler :=
  match s with
  | none => .rejected 404 "Session not found"
  | some s =>
    if s.results = [] then .rejected 400 "No results to regenerate"
    else if pyStrip feedback = "" then .rejected 400 "Please provide feedback"
    else .accepted

/-- Outcome of the results / download routes. -/
inductive ResultsOutcome
  | notFound
  /-- the 400 rejection carrying the current status -/
  | notComplete (status : String)
  /-- the completed payload: the full ordered result sequence (the CSV export
  serializes exactly these rows in order; text formatting is presentation) -/
  | ok (rows : List ResultRow)
deriving DecidableEq, Repr

/-- get_results (routes.py lines 446-465). -/
def get_results (s : Option Session) : ResultsOutcome :=
  match s with
  | none => .notFound
  | some s =>
    if s.status = "completed" then .ok s.results
    else .notComplete s.status

/-- download_results (routes.py lines 468-512): identical completed-only gate;
the payload rows are session.results in order. -/
def download_results (s : Option Session) : ResultsOutcome :=
  match s with
  | none => .notFound
  | some s =>
    if s.status = "completed" then .ok s.results
    else .notComplete s.status

/-! ## Derived predicates and fixtures used by the claims -/

/-- All four scores of a classification dict are integers in [1,5]. -/
def clampedR (r : ClassificationResult) : Bool :=
  decide ((1 ≤ r.impact_score ∧ r.impact_score ≤ 5)
    ∧ (1 ≤ r.urgency_score ∧ r.urgency_score ≤ 5)
    ∧ (1 ≤ r.frequency_score ∧ r.frequency_score ≤ 5)
    ∧ (1 ≤ r.controllability_score ∧ r.controllability_score ≤ 5))

/-- All four scores of a stored result row are integers in [1,5]. -/
def clampedRowB (row : ResultRow) : Bool :=
  decide ((1 ≤ row.impact_score ∧ row.impact_score ≤ 5)
    ∧ (1 ≤ row.urgency_score ∧ row.urgency_score ≤ 5)
    ∧ (1 ≤ row.frequency_score ∧ row.frequency_score ≤ 5)
    ∧ (1 ≤ row.controllability_score ∧ row.controllability_score ≤ 5))

/-- The dict holds both risk_code and risk_description, so a result row can
be built from it without a KeyError. -/
def buildableR (r : ClassificationResult) : Bool :=
  r.risk_code.isSome && r.risk_description.isSome

/-- Every cached dict is row-buildable. -/
def goodCacheB (c : Cache) : Bool := c.all (fun p => buildableR p.2)

/-- Every cached dict has clamped scores. -/
def clampedCacheB (c : Cache) : Bool := c.all (fun p => clampedR p.2)

/-- The upstream outcome lets one loop iteration succeed on a cache miss:
the try body yields a dict and that dict is row-buildable. -/
def stepGood (up : Upstream) : Bool :=
  match respOutcomeC up with
  | .ok rb => buildableR rb.1
  | .error _ => false

/-- The result row built from a dict whose risk fields are present. -/
def mkRow (c : String) (rc rd : JPrim) (r : ClassificationResult) : ResultRow :=
  { complaint := c
    risk_code := rc
    risk_description := rd
    impact_score := r.impact_score
    urgency_score := r.urgency_score
    frequency_score := r.frequency_score
    controllability_score := r.controllability_score
    priority_score := (calculate_priority r.impact_score r.urgency_score
      r.frequency_score r.controllability_score).1
    priority_level := (calculate_priority r.impact_score r.urgency_score
      r.frequency_score r.controllability_score).2 }

/-- A one-row risk table as produced by the Layer-1 output CSV. -/
def sampleRiskTable : RiskTable := [[("Risk Code", "R1"), ("Description", "Leakage")]]

/-- A well-formed stored result row. -/
def sampleRow : ResultRow :=
  { complaint := "water leak"
    risk_code := .pstr "R1"
    risk_description := .pstr "Leakage"
    impact_score := 3
    urgency_score := 3
    frequency_score := 3
    controllability_score := 3
    priority_score := 9
    priority_level := "P4 - Low" }

/-- A session whose background run is currently in flight. -/
def processingSession : Session :=
  { session_id := "s-proc"
    created_at := 0
    complaints := ["water leak"]
    risk_table := sampleRiskTable
    results := [sampleRow]
    status := "processing"
    total_rows := 1
    processed_rows := 0
    start_time := some 0
    end_time := none
    error_message := none }

/-- A session whose first run completed, with the counters it then holds. -/
def completedSession : Session :=
  { session_id := "s-done"
    created_at := 0
    complaints := ["water leak"]
    risk_table := sampleRiskTable
    results := [sampleRow]
    status := "completed"
    total_rows := 1
    processed_rows := 1
    start_time := some 0
    end_time := some 1
    error_message := none }

/-- A fresh two-complaint session. -/
def twoSession : Session :=
  { session_id := "s-two"
    created_at := 0
    complaints := ["pipe burst", "mould on wall"]
    risk_table := sampleRiskTable
    results := []
    status := "pending"
    total_rows := 2
    processed_rows := 0
    start_time := none
    end_time := none
    error_message := none }

/-- A well-formed upstream response object. -/
def goodResp : JTop :=
  .tobj [("risk_code", .pstr "R1"), ("risk_description", .pstr "Leakage"),
    ("impact_score", .pint 4), ("urgency_score", .pint 3),
    ("frequency_score", .pint 2), ("controllability_score", .pint 2)]

/-- The dict the adapter stores for goodResp. -/
def goodParsed : ClassificationResult :=
  { risk_code := some (.pstr "R1")
    risk_description := some (.pstr "Leakage")
    impact_score := 4
    urgency_score := 3
    frequency_score := 2
    controllability_score := 2 }

/-- A response object with the impact_score key missing. -/
def missingKeyResp : JTop :=
  .tobj [("risk_code", .pstr "R1"), ("risk_description", .pstr "Leakage"),
    ("urgency_score", .pint 4), ("frequency_score", .pint 2),
    ("controllability_score", .pint 2)]

/-- The dict the adapter stores for missingKeyResp: the missing score
defaults to 3 and everything else is kept. -/
def missingKeyParsed : ClassificationResult :=
  { risk_code := some (.pstr "R1")
    risk_description := some (.pstr "Leakage")
    impact_score := 3
    urgency_score := 4
    frequency_score := 2
    controllability_score := 2 }

/-- A response object with out-of-range scores 9 and -1. -/
def overflowResp : JTop :=
  .tobj [("risk_code", .pstr "R2"), ("risk_description", .pstr "Overheat"),
    ("impact_score", .pint 9), ("urgency_score", .pint (-1)),
    ("frequency_score", .pint 3), ("controllability_score", .pint 3)]

/-- The dict the adapter stores for overflowResp: scores clamped to 5,1,3,3. -/
def overflowParsed : ClassificationResult :=
  { risk_code := some (.pstr "R2")
    risk_description := some (.pstr "Overheat")
    impact_score := 5
    urgency_score := 1
    frequency_score := 3
    controllability_score := 3 }

/-- An oracle that answers every call with the same well-formed response. -/
def constOracle : LLM := fun _ _ => .parsed goodResp

/-- An oracle that answers the first call well and then fails hard. -/
def failingOracle : LLM := fun i _ => if i = 0 then .parsed goodResp else .raises

/-! ## C1 -/

/-- Rounding an integer-valued rational returns the integer. -/
lemma roundHalfEven_intCast (n : ℤ) : roundHalfEven ((n : ℚ)) = n := by
  have h3 : ((n : ℚ)).num.ediv ((((n : ℚ)).den : ℕ) : ℤ) = n := by
    rw [Rat.num_intCast, Rat.den_intCast]
    exact Int.ediv_one n
  simp only [roundHalfEven]
  rw [h3, sub_self]
  norm_num

/-- round(x, 2) of an integer-valued rational is the identity. -/
lemma round2_intCast (n : ℤ) : round2 ((n : ℚ)) = (n : ℚ) := by
  have h : (n : ℚ) * 100 = ((n * 100 : ℤ) : ℚ) := by push_cast; ring
  rw [round2, h, roundHalfEven_intCast]
  push_cast
  rw [mul_div_assoc]
  norm_num

/-- Evaluation of calculate_priority when the raw quotient is integral. -/
lemma calculate_priority_eval (i u f c v : ℤ)
    (h : ((i * u * f : ℤ) : ℚ) / ((c : ℤ) : ℚ) = ((v : ℚ))) :
    calculate_priority i u f c
      = ((v : ℚ),
        if (60 : ℚ) ≤ (v : ℚ) then "P1 - Critical"
        else if (40 : ℚ) ≤ (v : ℚ) then "P2 - High"
        else if (20 : ℚ) ≤ (v : ℚ) then "P3 - Medium" else "P4 - Low") := by
  unfold calculate_priority
  rw [h, round2_intCast]

/-- C1: calculate_priority is a pure function; for integer sub-scores with
controllability at least 1 it returns round((impact * urgency * frequency) /
controllability, 2) as the score, assigns the level by the first matching
band (60 and above P1, 40 to 60 P2, 20 to 40 P3, below 20 P4, boundaries in
the higher band), and on (5,4,3,1), (4,4,2,1), (2,2,2,2) yields 60.00 / P1,
32.00 / P3, 4.00 / P4 respectively. -/
theorem c1_priority_bands (impact urgency frequency controllability : ℤ)
    (hc : 1 ≤ controllability) :
    (calculate_priority impact urgency frequency controllability).1
        = round2 (((impact * urgency * frequency : ℤ) : ℚ) / (controllability : ℚ))
    ∧ ((calculate_priority impact urgency frequency controllability).2 = "P1 - Critical"
        ↔ 60 ≤ (calculate_priority impact urgency frequency controllability).1)
    ∧ ((calculate_priority impact urgency frequency controllability).2 = "P2 - High"
        ↔ 40 ≤ (calculate_priority impact urgency frequency controllability).1
          ∧ (calculate_priority impact urgency frequency controllability).1 < 60)
    ∧ ((calculate_priority impact urgency frequency controllability).2 = "P3 - Medium"
        ↔ 20 ≤ (calculate_priority impact urgency frequency controllability).1
          ∧ (calculate_priority impact urgency frequency controllability).1 < 40)
    ∧ ((calculate_priority impact urgency frequency controllability).2 = "P4 - Low"
        ↔ (calculate_priority impact urgency frequency controllability).1 < 20)
    ∧ calculate_priority 5 4 3 1 = (60, "P1 - Critical")
    ∧ calculate_priority 4 4 2 1 = (32, "P3 - Medium")
    ∧ calculate_priority 2 2 2 2 = (4, "P4 - Low") := by
  have key : ∀ x : ℚ,
      ((if 60 ≤ x then "P1 - Critical" else if 40 ≤ x then "P2 - High"
        else if 20 ≤ x then "P3 - Medium" else "P4 - Low") = "P1 - Critical" ↔ 60 ≤ x)
      ∧ ((if 60 ≤ x then "P1 - Critical" else if 40 ≤ x then "P2 - High"
        else if 20 ≤ x then "P3 - Medium" else "P4 - Low") = "P2 - High" ↔ 40 ≤ x ∧ x < 60)
      ∧ ((if 60 ≤ x then "P1 - Critical" else if 40 ≤ x then "P2 - High"
        else if 20 ≤ x then "P3 - Medium" else "P4 - Low") = "P3 - Medium" ↔ 20 ≤ x ∧ x < 40)
      ∧ ((if 60 ≤ x then "P1 - Critical" else if 40 ≤ x then "P2 - High"
        else if 20 ≤ x then "P3 - Medium" else "P4 - Low") = "P4 - Low" ↔ x < 20) := by
    intro x
    split_ifs with h1 h2 h3
    · exact ⟨iff_of_true rfl h1,
        iff_of_false (by decide) (fun h => by linarith [h.2]),
        iff_of_false (by decide) (fun h => by linarith [h.2]),
        iff_of_false (by decide) (fun h => by linarith)⟩
    · exact ⟨iff_of_false (by decide) h1,
        iff_of_true rfl ⟨h2, not_le.mp h1⟩,
        iff_of_false (by decide) (fun h => by linarith [h.2]),
        iff_of_false (by decide) (fun h => by linarith)⟩
    · exact ⟨iff_of_false (by decide) h1,
        iff_of_false (by decide) (fun h => absurd h.1 h2),
        iff_of_true rfl ⟨h3, not_le.mp h2⟩,
        iff_of_false (by decide) (fun h => by linarith)⟩
    · exact ⟨iff_of_false (by decide) h1,
        iff_of_false (by decide) (fun h => absurd h.1 h2),
        iff_of_false (by decide) (fun h => absurd h.1 h3),
        iff_of_true rfl (not_le.mp h3)⟩
  refine ⟨rfl, (key _).1, (key _).2.1, (key _).2.2.1, (key _).2.2.2, ?_, ?_, ?_⟩
  · rw [calculate_priority_eval 5 4 3 1 60 (by norm_num)]
    norm_num
  · rw [calculate_priority_eval 4 4 2 1 32 (by norm_num)]
    norm_num
  · rw [calculate_priority_eval 2 2 2 2 4 (by norm_num)]
    norm_num

/-- Witness for C1 at the concrete input (5,4,3,1). -/
theorem c1_priority_bands_witness :
    (calculate_priority 5 4 3 1).2 = "P1 - Critical" := by
  have h := c1_priority_bands 5 4 3 1 (by norm_num)
  rw [h.2.2.2.2.2.1]

/-! ## C2 -/

/-- C2 counterexample: with a run already in flight (status processing) and
prior results present, the feedback-reprocessing trigger is accepted rather
than rejected with an already-in-progress error. -/
theorem c2_counterexample :
    processingSession.status = "processing" ∧
    regenerate_results (some processingSession) "redo" = .accepted := by
  exact ⟨rfl, by decide⟩

/-- C2 amended: only the start-processing trigger enforces the mutual
exclusion (rejected with the already-in-progress error while status is
processing); the feedback-reprocessing trigger performs no state check and is
accepted exactly when prior results exist and the feedback text is nonblank,
even while a run is in flight. -/
theorem c2_amended (s : Session) (feedback : String) :
    (s.status = "processing" →
      start_processing (some s) = .rejected 400 "Processing already in progress")
    ∧ (regenerate_results (some s) feedback = .accepted ↔
        s.results ≠ [] ∧ pyStrip feedback ≠ "") := by
  constructor
  · intro h
    simp [start_processing, h]
  · simp only [regenerate_results]
    split_ifs with h1 h2
    · simp [h1]
    · simp [h2]
    · simp [h1, h2]

/-- Witness for C2 amended at a concrete in-flight session. -/
theorem c2_amended_witness :
    start_processing (some processingSession)
        = .rejected 400 "Processing already in progress" ∧
    regenerate_results (some processingSession) "redo" = .accepted := by
  exact ⟨(c2_amended processingSession "redo").1 rfl,
    (c2_amended processingSession "redo").2.mpr ⟨by decide, by decide⟩⟩

/-! ## C7 -/

/-- C7 counterexample: the run prologue does not reset the processed counter;
starting a new run on a session whose counter is 1 leaves it at 1, not 0. -/
theorem c7_counterexample :
    (startRun completedSession 2).processed_rows = 1 ∧
    (startRun completedSession 2).processed_rows ≠ 0 := by
  exact ⟨rfl, by decide⟩

/-- C7 amended: at the start of every processing and feedback-reprocessing
run the state is set to processing, the start timestamp is recorded and the
result sequence is cleared, but the processed counter is not reset: it keeps
its previous value until the first iteration of the loop overwrites it. -/
theorem c7_amended (s : Session) (t0 : Nat) :
    (startRun s t0).status = "processing"
    ∧ (startRun s t0).start_time = some t0
    ∧ (startRun s t0).results = []
    ∧ (startRun s t0).processed_rows = s.processed_rows :=
  ⟨rfl, rfl, rfl, rfl⟩

/-! ## C9 -/

/-- C9: fetching results and exporting the report are rejected whenever the
session state is not completed (a missing session is a not-found error), and
when completed they return the full ordered result sequence. -/
theorem c9_results_gate (s : Session) :
    get_results none = .notFound
    ∧ download_results none = .notFound
    ∧ (s.status ≠ "completed" →
        get_results (some s) = .notComplete s.status ∧
        download_results (some s) = .notComplete s.status)
    ∧ (s.status = "completed" →
        get_results (some s) = .ok s.results ∧
        download_results (some s) = .ok s.results) := by
  refine ⟨rfl, rfl, ?_, ?_⟩
  · intro h
    constructor <;> simp [get_results, download_results, h]
  · intro h
    constructor <;> simp [get_results, download_results, h]

/-- Witness for C9 at a processing and at a completed session. -/
theorem c9_results_gate_witness :
    get_results (some processingSession) = .notComplete "processing" ∧
    get_results (some completedSession) = .ok completedSession.results := by
  exact ⟨((c9_results_gate processingSession).2.2.1 (by decide)).1,
    ((c9_results_gate completedSession).2.2.2 rfl).1⟩

/-! ## Shared lemmas about the adapter, the cache and the loops -/

/-- The clamp really lands in [1,5]. -/
lemma clamp_bounds (x : ℤ) : 1 ≤ clamp x ∧ clamp x ≤ 5 := by
  unfold clamp
  exact ⟨le_max_left 1 _, max_le (by norm_num) (min_le_left 5 x)⟩

/-- A successfully parsed dict has clamped scores. -/
lemma parse_ok_clamped (v : JTop) (r : ClassificationResult)
    (h : parseClassification v = .ok r) : clampedR r = true := by
  unfold parseClassification at h
  split at h
  · exact absurd h (by simp)
  · split at h
    · exact absurd h (by simp)
    · split at h
      · exact absurd h (by simp)
      · split at h
        · exact absurd h (by simp)
        · split at h
          · exact absurd h (by simp)
          · injection h with h
            subst h
            simp only [clampedR, decide_eq_true_eq]
            exact ⟨clamp_bounds _, clamp_bounds _, clamp_bounds _, clamp_bounds _⟩

/-- The fallback dict has clamped scores. -/
lemma fallback_clamped : clampedR fallbackResult = true := by decide

/-- The fallback dict is row-buildable. -/
lemma fallback_buildable : buildableR fallbackResult = true := by decide

/-- Any dict produced by the try body has clamped scores. -/
lemma respOutcomeC_ok_clamped (up : Upstream) (r : ClassificationResult) (b : Bool)
    (h : respOutcomeC up = .ok (r, b)) : clampedR r = true := by
  unfold respOutcomeC at h
  split at h
  · exact absurd h (by simp)
  · simp only [Except.ok.injEq, Prod.mk.injEq] at h
    rw [← h.1]
    exact fallback_clamped
  · split at h
    · rename_i r2 heq
      simp only [Except.ok.injEq, Prod.mk.injEq] at h
      rw [← h.1]
      exact parse_ok_clamped _ r2 heq
    · split at h
      · simp only [Except.ok.injEq, Prod.mk.injEq] at h
        rw [← h.1]
        exact fallback_clamped
      · exact absurd h (by simp)

/-- Unpack a good step: the try body succeeds with a buildable dict. -/
lemma stepGood_spec (up : Upstream) (h : stepGood up = true) :
    ∃ r b, respOutcomeC up = .ok (r, b) ∧ buildableR r = true := by
  unfold stepGood at h
  split at h
  · rename_i rb heq
    exact ⟨rb.1, rb.2, heq, h⟩
  · exact absurd h (by simp)

/-- Unpack buildability into the two present fields. -/
lemma buildable_spec (r : ClassificationResult) (h : buildableR r = true) :
    ∃ rc rd, r.risk_code = some rc ∧ r.risk_description = some rd := by
  unfold buildableR at h
  rw [Bool.and_eq_true, Option.isSome_iff_exists, Option.isSome_iff_exists] at h
  obtain ⟨⟨rc, hrc⟩, ⟨rd, hrd⟩⟩ := h
  exact ⟨rc, rd, hrc, hrd⟩

/-- Row construction succeeds exactly as mkRow when the risk fields exist. -/
lemma buildRow_eq (c : String) (rc rd : JPrim) (r : ClassificationResult)
    (h1 : r.risk_code = some rc) (h2 : r.risk_description = some rd) :
    buildRow c r = .ok (mkRow c rc rd r) := by
  unfold buildRow mkRow
  rw [h1, h2]

/-- A built row carries the dict's four scores unchanged. -/
lemma buildRow_scores (c : String) (r : ClassificationResult) (row : ResultRow)
    (h : buildRow c r = .ok row) :
    row.impact_score = r.impact_score ∧ row.urgency_score = r.urgency_score
    ∧ row.frequency_score = r.frequency_score
    ∧ row.controllability_score = r.controllability_score := by
  unfold buildRow at h
  split at h
  · injection h with h
    subst h
    exact ⟨rfl, rfl, rfl, rfl⟩
  · exact absurd h (by simp)

/-- A row built from a clamped dict is clamped. -/
lemma buildRow_clamped (c : String) (r : ClassificationResult) (row : ResultRow)
    (hr : clampedR r = true) (h : buildRow c r = .ok row) :
    clampedRowB row = true := by
  obtain ⟨h1, h2, h3, h4⟩ := buildRow_scores c r row h
  simp only [clampedRowB, decide_eq_true_eq, h1, h2, h3, h4]
  simpa only [clampedR, decide_eq_true_eq] using hr

/-- Lookup after an insert at the same key. -/
lemma cacheLookup_insert_self (c : Cache) (k : String) (r : ClassificationResult) :
    cacheLookup (cacheInsert c k r) k = some r := by
  simp [cacheInsert, cacheLookup]

/-- Lookup after an insert at a different key. -/
lemma cacheLookup_insert_ne (c : Cache) (k : String) (r : ClassificationResult)
    (k2 : String) (h : k ≠ k2) :
    cacheLookup (cacheInsert c k r) k2 = cacheLookup c k2 := by
  simp only [cacheInsert, cacheLookup]
  rw [if_neg h]

/-- Deleting a key removes it. -/
lemma cacheLookup_erase_self (c : Cache) (k : String) :
    cacheLookup (cacheErase c k) k = none := by
  induction c with
  | nil => rfl
  | cons p rest ih =>
    obtain ⟨k1, v⟩ := p
    simp only [cacheErase]
    split
    · exact ih
    · rename_i hne
      simp only [cacheLookup]
      rw [if_neg hne]
      exact ih

/-- Deleting never adds bindings. -/
lemma cacheLookup_erase_sub (c : Cache) (k0 k : String) (r : ClassificationResult)
    (h : cacheLookup (cacheErase c k0) k = some r) : cacheLookup c k = some r := by
  induction c with
  | nil => exact absurd h (by simp [cacheErase, cacheLookup])
  | cons p rest ih =>
    obtain ⟨k1, v⟩ := p
    simp only [cacheErase] at h
    by_cases he : k1 = k0
    · rw [if_pos he] at h
      by_cases hk : k1 = k
      · exfalso
        rw [he] at hk
        rw [← hk] at h
        rw [cacheLookup_erase_self] at h
        exact Option.noConfusion h
      · simp only [cacheLookup]
        rw [if_neg hk]
        exact ih h
    · rw [if_neg he] at h
      simp only [cacheLookup] at h ⊢
      by_cases hk : k1 = k
      · rw [if_pos hk] at h ⊢
        exact h
      · rw [if_neg hk] at h ⊢
        exact ih h

/-- Deleting preserves any per-entry property. -/
lemma cacheErase_all (f : String × ClassificationResult → Bool) (c : Cache)
    (k : String) (h : c.all f = true) : (cacheErase c k).all f = true := by
  induction c with
  | nil => simp [cacheErase]
  | cons p rest ih =>
    simp only [List.all_cons, Bool.and_eq_true] at h
    simp only [cacheErase]
    split
    · exact ih h.2
    · simp only [List.all_cons, Bool.and_eq_true]
      exact ⟨h.1, ih h.2⟩

/-- A looked-up entry of a buildable cache is buildable. -/
lemma goodCacheB_lookup (cache : Cache) (k : String) (r : ClassificationResult)
    (hg : goodCacheB cache = true) (h : cacheLookup cache k = some r) :
    buildableR r = true := by
  induction cache with
  | nil => exact absurd h (by simp [cacheLookup])
  | cons p rest ih =>
    obtain ⟨k1, v⟩ := p
    simp only [goodCacheB, List.all_cons, Bool.and_eq_true] at hg
    simp only [cacheLookup] at h
    by_cases hk : k1 = k
    · rw [if_pos hk] at h
      injection h with h
      rw [← h]
      exact hg.1
    · rw [if_neg hk] at h
      exact ih hg.2 h

/-- A looked-up entry of a clamped cache is clamped. -/
lemma clampedCacheB_lookup (cache : Cache) (k : String) (r : ClassificationResult)
    (hg : clampedCacheB cache = true) (h : cacheLookup cache k = some r) :
    clampedR r = true := by
  induction cache with
  | nil => exact absurd h (by simp [cacheLookup])
  | cons p rest ih =>
    obtain ⟨k1, v⟩ := p
    simp only [clampedCacheB, List.all_cons, Bool.and_eq_true] at hg
    simp only [cacheLookup] at h
    by_cases hk : k1 = k
    · rw [if_pos hk] at h
      injection h with h
      rw [← h]
      exact hg.1
    · rw [if_neg hk] at h
      exact ih hg.2 h

/-- Every row appended by the processing loop is clamped and the cache stays
clamped, assuming both invariants hold on entry. -/
lemma processLoop_clamped (rt : RiskTable) (o : Nat → Upstream) :
    ∀ (cs : List String) (i : Nat) (cache : Cache) (rows : List ResultRow) (p : Nat),
      clampedCacheB cache = true → rows.all clampedRowB = true →
      (processLoop rt o cs i cache rows p).rows.all clampedRowB = true
      ∧ clampedCacheB (processLoop rt o cs i cache rows p).cache = true := by
  intro cs
  induction cs with
  | nil => intro i cache rows p hc hr; exact ⟨hr, hc⟩
  | cons c rest ih =>
    intro i cache rows p hc hr
    cases hcl : cacheLookup cache (getCacheKey c rt) with
    | some r =>
      have hclr : clampedR r = true := clampedCacheB_lookup cache _ r hc hcl
      have hce : classify_complaint cache c rt (o i) = .ok (r, cache, false) := by
        simp only [classify_complaint, hcl]
      cases hbr : buildRow c r with
      | error e =>
        simp only [processLoop, hce, hbr]
        exact ⟨hr, hc⟩
      | ok row =>
        have hrow : clampedRowB row = true := buildRow_clamped c r row hclr hbr
        simp only [processLoop, hce, hbr]
        exact ih (i + 1) cache (rows ++ [row]) (i + 1) hc
          (by simp [List.all_append, hr, hrow])
    | none =>
      cases hresp : respOutcomeC (o i) with
      | error e =>
        have hce : classify_complaint cache c rt (o i) = .error e := by
          simp only [classify_complaint, hcl, hresp]
        simp only [processLoop, hce]
        exact ⟨hr, hc⟩
      | ok rb =>
        obtain ⟨r, b⟩ := rb
        have hclr : clampedR r = true := respOutcomeC_ok_clamped (o i) r b hresp
        have hce : classify_complaint cache c rt (o i)
            = .ok (r, if b then cacheInsert cache (getCacheKey c rt) r else cache, true) := by
          simp only [classify_complaint, hcl, hresp]
        have hc1 : clampedCacheB
            (if b then cacheInsert cache (getCacheKey c rt) r else cache) = true := by
          cases b
          · simpa using hc
          · simp only [if_pos]
            simp only [clampedCacheB, cacheInsert, List.all_cons, Bool.and_eq_true]
            exact ⟨hclr, hc⟩
        cases hbr : buildRow c r with
        | error e =>
          simp only [processLoop, hce, hbr]
          exact ⟨hr, hc1⟩
        | ok row =>
          have hrow : clampedRowB row = true := buildRow_clamped c r row hclr hbr
          simp only [processLoop, hce, hbr]
          exact ih (i + 1) _ (rows ++ [row]) (i + 1) hc1
            (by simp [List.all_append, hr, hrow])

/-- Same invariants for the feedback loop. -/
lemma reprocessLoop_clamped (rt : RiskTable) (o : Nat → Upstream) :
    ∀ (cs : List String) (i : Nat) (cache : Cache) (rows : List ResultRow) (p : Nat),
      clampedCacheB cache = true → rows.all clampedRowB = true →
      (reprocessLoop rt o cs i cache rows p).rows.all clampedRowB = true
      ∧ clampedCacheB (reprocessLoop rt o cs i cache rows p).cache = true := by
  intro cs
  induction cs with
  | nil => intro i cache rows p hc hr; exact ⟨hr, hc⟩
  | cons c rest ih =>
    intro i cache rows p hc hr
    have hc0 : clampedCacheB (cacheErase cache (getCacheKey c rt)) = true :=
      cacheErase_all _ cache _ hc
    cases hresp : respOutcomeC (o i) with
    | error e =>
      simp only [reprocessLoop, hresp]
      exact ⟨hr, hc0⟩
    | ok rb =>
      obtain ⟨r, b⟩ := rb
      have hclr : clampedR r = true := respOutcomeC_ok_clamped (o i) r b hresp
      cases hbr : buildRow c r with
      | error e =>
        simp only [reprocessLoop, hresp, hbr]
        exact ⟨hr, hc0⟩
      | ok row =>
        have hrow : clampedRowB row = true := buildRow_clamped c r row hclr hbr
        simp only [reprocessLoop, hresp, hbr]
        exact ih (i + 1) _ (rows ++ [row]) (i + 1) hc0
          (by simp [List.all_append, hr, hrow])

/-- The epilogue stores the loop rows whatever the outcome. -/
lemma finishRun_results (s1 : Session) (t1 : Nat) (out : LoopOut) :
    (finishRun s1 t1 out).results = out.rows := by
  unfold finishRun
  cases out.err <;> rfl

/-- The epilogue stores the loop counter whatever the outcome. -/
lemma finishRun_processed (s1 : Session) (t1 : Nat) (out : LoopOut) :
    (finishRun s1 t1 out).processed_rows = out.processed := by
  unfold finishRun
  cases out.err <;> rfl

/-- The epilogue's status only depends on whether the loop raised. -/
lemma finishRun_status (s1 : Session) (t1 : Nat) (out : LoopOut) :
    (finishRun s1 t1 out).status
      = (match out.err with | none => "completed" | some _ => "error") := by
  unfold finishRun
  cases out.err <;> rfl

/-- A completed epilogue means the loop finished without an exception. -/
lemma finishRun_completed (s1 : Session) (t1 : Nat) (out : LoopOut)
    (h : (finishRun s1 t1 out).status = "completed") : out.err = none := by
  rw [finishRun_status] at h
  cases h2 : out.err with
  | none => rfl
  | some e =>
    rw [h2] at h
    simp at h

/-- The stored results of a processing run are the loop rows. -/
lemma process_results_eq (s : Session) (cache : Cache) (oracle : LLM) (t0 t1 : Nat) :
    (process_complaints s cache oracle t0 t1).1.results
      = (processLoop s.risk_table (fun i => oracle i "") s.complaints 0 cache []
          s.processed_rows).rows := by
  unfold process_complaints
  exact finishRun_results _ _ _

/-- The final cache of a processing run is the loop cache. -/
lemma process_cache_eq (s : Session) (cache : Cache) (oracle : LLM) (t0 t1 : Nat) :
    (process_complaints s cache oracle t0 t1).2
      = (processLoop s.risk_table (fun i => oracle i "") s.complaints 0 cache []
          s.processed_rows).cache := rfl

/-- The stored results of a feedback run are the loop rows. -/
lemma reprocess_results_eq (s : Session) (fb : String) (cache : Cache)
    (oracle : LLM) (t0 t1 : Nat) :
    (reprocess_with_feedback s fb cache oracle t0 t1).1.results
      = (reprocessLoop s.risk_table (fun i => oracle i (feedbackContext fb))
          s.complaints 0 cache [] s.processed_rows).rows := by
  unfold reprocess_with_feedback
  exact finishRun_results _ _ _

/-- The final cache of a feedback run is the loop cache. -/
lemma reprocess_cache_eq (s : Session) (fb : String) (cache : Cache)
    (oracle : LLM) (t0 t1 : Nat) :
    (reprocess_with_feedback s fb cache oracle t0 t1).2
      = (reprocessLoop s.risk_table (fun i => oracle i (feedbackContext fb))
          s.complaints 0 cache [] s.processed_rows).cache := rfl

/-! ## C4 -/

/-- C4: every classification stored in a result row (of either kind of run)
or in the cache has all four sub-scores in [1,5], whatever the upstream
returned; the response with scores 9,-1,3,3 is stored as 5,1,3,3. -/
theorem c4_scores_clamped (s : Session) (cache : Cache) (oracle : LLM)
    (t0 t1 : Nat) (fb : String) (hcache : clampedCacheB cache = true) :
    (∀ row ∈ (process_complaints s cache oracle t0 t1).1.results,
        clampedRowB row = true)
    ∧ (∀ k r, cacheLookup (process_complaints s cache oracle t0 t1).2 k = some r →
        clampedR r = true)
    ∧ (∀ row ∈ (reprocess_with_feedback s fb cache oracle t0 t1).1.results,
        clampedRowB row = true)
    ∧ (∀ k r, cacheLookup (reprocess_with_feedback s fb cache oracle t0 t1).2 k = some r →
        clampedR r = true)
    ∧ parseClassification overflowResp = .ok overflowParsed := by
  have hp := processLoop_clamped s.risk_table (fun i => oracle i "")
    s.complaints 0 cache [] s.processed_rows hcache rfl
  have hq := reprocessLoop_clamped s.risk_table
    (fun i => oracle i (feedbackContext fb)) s.complaints 0 cache []
    s.processed_rows hcache rfl
  refine ⟨?_, ?_, ?_, ?_, ?_⟩
  · intro row hrow
    rw [process_results_eq] at hrow
    exact List.all_eq_true.mp hp.1 row hrow
  · intro k r hlook
    rw [process_cache_eq] at hlook
    exact clampedCacheB_lookup _ k r hp.2 hlook
  · intro row hrow
    rw [reprocess_results_eq] at hrow
    exact List.all_eq_true.mp hq.1 row hrow
  · intro k r hlook
    rw [reprocess_cache_eq] at hlook
    exact clampedCacheB_lookup _ k r hq.2 hlook
  · rfl

/-- Witness for C4: the clamp example extracted at a concrete session. -/
theorem c4_scores_clamped_witness :
    parseClassification overflowResp = .ok overflowParsed :=
  (c4_scores_clamped (initSession "w" 0) [] constOracle 0 1 "f" rfl).2.2.2.2

/-! ## C3 -/

/-- C3 counterexample: a response missing the impact_score key does not get
the ER-03 fallback; the missing score silently defaults to 3 and the rest of
the response (including its risk code) is kept and cached. -/
theorem c3_counterexample :
    classify_complaint [] "water leak" sampleRiskTable (.parsed missingKeyResp)
      = .ok (missingKeyParsed,
          cacheInsert [] (getCacheKey "water leak" sampleRiskTable) missingKeyParsed,
          true)
    ∧ missingKeyParsed ≠ fallbackResult := by
  exact ⟨rfl, by decide⟩

/-- C3 amended: malformed JSON, and score values whose int() coercion raises
ValueError, yield the fixed fallback and the run continues (the fallback is
row-buildable); a missing score key instead silently defaults that score to 3
while keeping the rest of the response; an exception not in the caught tuple
(TypeError on a null score, AttributeError on a non-object response, KeyError
later on a missing risk_code) propagates and aborts the run. -/
theorem c3_amended (cache : Cache) (c : String) (rt : RiskTable) (v : JTop)
    (e : PyErr) (hmiss : cacheLookup cache (getCacheKey c rt) = none) :
    classify_complaint cache c rt .malformed = .ok (fallbackResult, cache, true)
    ∧ (parseClassification v = .error e → caught e = true →
        classify_complaint cache c rt (.parsed v) = .ok (fallbackResult, cache, true))
    ∧ (parseClassification v = .error e → caught e = false →
        classify_complaint cache c rt (.parsed v) = .error e)
    ∧ (∃ row, buildRow c fallbackResult = .ok row)
    ∧ (∀ fields r, getField fields "impact_score" = none →
        parseClassification (.tobj fields) = .ok r → r.impact_score = 3) := by
  refine ⟨?_, ?_, ?_, ?_, ?_⟩
  · simp [classify_complaint, hmiss, respOutcomeC]
  · intro hp hcaught
    simp [classify_complaint, hmiss, respOutcomeC, hp, hcaught]
  · intro hp hcaught
    simp [classify_complaint, hmiss, respOutcomeC, hp, hcaught]
  · exact ⟨_, buildRow_eq c (.pstr "ER-03") (.pstr "Unable to classify")
      fallbackResult rfl rfl⟩
  · intro fields r hnone hp
    simp only [parseClassification] at hp
    rw [hnone] at hp
    simp only [Option.getD_none, pyIntOfPrim] at hp
    split at hp
    · exact absurd hp (by simp)
    · split at hp
      · exact absurd hp (by simp)
      · split at hp
        · exact absurd hp (by simp)
        · injection hp with hp
          subst hp
          rfl

/-- Witness for C3 amended: the ValueError path at a concrete non-numeric
score, plus the malformed-JSON path, on the empty cache. -/
theorem c3_amended_witness :
    classify_complaint [] "water leak" sampleRiskTable
        (.parsed (.tobj [("impact_score", .pstr "high")]))
      = .ok (fallbackResult, [], true)
    ∧ classify_complaint [] "water leak" sampleRiskTable .malformed
      = .ok (fallbackResult, [], true) := by
  have h := c3_amended [] "water leak" sampleRiskTable
    (.tobj [("impact_score", .pstr "high")]) .valueError rfl
  exact ⟨h.2.1 rfl rfl, h.1⟩

/-! ## C6 -/

/-- C6 counterexample: when the first upstream response is malformed nothing
is cached, so the second classification of the identical complaint against
the identical risk table invokes the external capability again (invoked flag
true) instead of being served from the cache. -/
theorem c6_counterexample :
    classify_complaint [] "water leak" sampleRiskTable .malformed
      = .ok (fallbackResult, emptyCache, true)
    ∧ classify_complaint emptyCache "water leak" sampleRiskTable .malformed
      = .ok (fallbackResult, emptyCache, true) := ⟨rfl, rfl⟩

/-- C6 amended: the cache key is the digest of the complaint text joined with
the sort-key-stable serialization of the risk table; provided the first
response parses successfully (so the result is cached), the second
classification of the identical complaint and table is served from the cache
with the identical result and without invoking the external capability. -/
theorem c6_amended (cache : Cache) (c : String) (rt : RiskTable) (v : JTop)
    (r : ClassificationResult) (up2 : Upstream)
    (hmiss : cacheLookup cache (getCacheKey c rt) = none)
    (hparse : parseClassification v = .ok r) :
    getCacheKey c rt = c ++ "|" ++ dumpsTable rt
    ∧ classify_complaint cache c rt (.parsed v)
        = .ok (r, cacheInsert cache (getCacheKey c rt) r, true)
    ∧ classify_complaint (cacheInsert cache (getCacheKey c rt) r) c rt up2
        = .ok (r, cacheInsert cache (getCacheKey c rt) r, false) := by
  refine ⟨rfl, ?_, ?_⟩
  · simp [classify_complaint, hmiss, respOutcomeC, hparse]
  · simp [classify_complaint, cacheLookup_insert_self]

/-- Witness for C6 amended at a concrete complaint and well-formed response. -/
theorem c6_amended_witness :
    classify_complaint [] "water leak" sampleRiskTable (.parsed goodResp)
      = .ok (goodParsed,
          cacheInsert [] (getCacheKey "water leak" sampleRiskTable) goodParsed, true)
    ∧ classify_complaint
        (cacheInsert [] (getCacheKey "water leak" sampleRiskTable) goodParsed)
        "water leak" sampleRiskTable .malformed
      = .ok (goodParsed,
          cacheInsert [] (getCacheKey "water leak" sampleRiskTable) goodParsed, false) := by
  have h := c6_amended [] "water leak" sampleRiskTable goodResp goodParsed
    .malformed rfl rfl
  exact ⟨h.2.1, h.2.2⟩

/-! ## C8 -/

/-- C8 counterexample: the session state after a feedback run is identical
for two different feedback texts (same upstream responses): the session keeps
no iteration counter and no feedback log, so nothing is incremented and no
text is appended anywhere. -/
theorem c8_counterexample :
    reprocess_with_feedback completedSession "raise the severity" [] constOracle 3 4
      = reprocess_with_feedback completedSession "lower the severity" [] constOracle 3 4 := rfl

/-- C8 amended: submitting feedback triggers a reprocessing run, but the
session records neither an iteration counter nor a feedback log; the feedback
text only enters the per-complaint prompts, so whenever the upstream answers
independently of the appended suffix the resulting session state and cache
are independent of the feedback text. -/
theorem c8_amended (s : Session) (fb1 fb2 : String) (cache : Cache)
    (oracle : LLM) (t0 t1 : Nat) (h : ∀ i x, oracle i x = oracle i "") :
    reprocess_with_feedback s fb1 cache oracle t0 t1
      = reprocess_with_feedback s fb2 cache oracle t0 t1 := by
  unfold reprocess_with_feedback
  have he : (fun i => oracle i (feedbackContext fb1))
      = fun i => oracle i (feedbackContext fb2) := by
    funext i
    rw [h i (feedbackContext fb1), h i (feedbackContext fb2)]
  rw [he]

/-- Witness for C8 amended at a concrete session and oracle. -/
theorem c8_amended_witness :
    reprocess_with_feedback processingSession "harsher" [] constOracle 0 1
      = reprocess_with_feedback processingSession "milder" [] constOracle 0 1 :=
  c8_amended processingSession "harsher" "milder" [] constOracle 0 1
    (fun _ _ => rfl)

/-! ## C5 -/

/-- If the first k upstream outcomes are good, the k-th complaint misses the
cache (its key differs from the earlier ones) and its upstream call raises,
the loop stops with exactly k appended rows, the apiError captured, and the
counter overwritten only when at least one iteration ran. -/
lemma processLoop_fail_at (rt : RiskTable) (o : Nat → Upstream) :
    ∀ (k : Nat) (cs : List String) (i : Nat) (cache : Cache) (rows : List ResultRow)
      (p : Nat) (hk : k < cs.length),
      goodCacheB cache = true →
      (∀ j, j < k → stepGood (o (i + j)) = true) →
      o (i + k) = .raises →
      cacheLookup cache (getCacheKey (cs.get ⟨k, hk⟩) rt) = none →
      (∀ j (hj : j < k), getCacheKey (cs.get ⟨j, hj.trans hk⟩) rt
          ≠ getCacheKey (cs.get ⟨k, hk⟩) rt) →
      ∃ (newRows : List ResultRow) (cacheF : Cache),
        newRows.length = k ∧
        processLoop rt o cs i cache rows p
          = ⟨rows ++ newRows, if k = 0 then p else i + k, cacheF, some .apiError⟩ := by
  intro k
  induction k with
  | zero =>
    intro cs i cache rows p hk hg hsteps hfail hmiss hdist
    cases cs with
    | nil => simp at hk
    | cons c rest =>
      refine ⟨[], cache, rfl, ?_⟩
      have hfail0 : o i = .raises := by simpa using hfail
      have hm : cacheLookup cache (getCacheKey c rt) = none := by simpa using hmiss
      have hce : classify_complaint cache c rt (o i) = .error .apiError := by
        simp only [classify_complaint, hm, hfail0, respOutcomeC]
      simp only [processLoop, hce]
      simp
  | succ k ih =>
    intro cs i cache rows p hk hg hsteps hfail hmiss hdist
    cases cs with
    | nil => simp at hk
    | cons c rest =>
      have hk1 : k < rest.length := by
        simp only [List.length_cons] at hk
        omega
      have h0 : stepGood (o i) = true := by
        have h2 := hsteps 0 (Nat.succ_pos k)
        simpa using h2
      obtain ⟨r0, b0, hresp, hbuild⟩ := stepGood_spec (o i) h0
      have hdist0 : getCacheKey c rt ≠ getCacheKey (rest.get ⟨k, hk1⟩) rt := by
        have h2 := hdist 0 (Nat.succ_pos k)
        simpa using h2
      have hmiss1 : cacheLookup cache (getCacheKey (rest.get ⟨k, hk1⟩) rt) = none := by
        simpa using hmiss
      have hsteps1 : ∀ j, j < k → stepGood (o (i + 1 + j)) = true := by
        intro j hj
        have h2 := hsteps (j + 1) (Nat.succ_lt_succ hj)
        rwa [show i + (j + 1) = i + 1 + j by omega] at h2
      have hfail1 : o (i + 1 + k) = .raises := by
        rw [show i + 1 + k = i + (k + 1) by omega]
        exact hfail
      have hdist1 : ∀ j (hj : j < k),
          getCacheKey (rest.get ⟨j, hj.trans hk1⟩) rt
            ≠ getCacheKey (rest.get ⟨k, hk1⟩) rt := by
        intro j hj
        have h2 := hdist (j + 1) (Nat.succ_lt_succ hj)
        simpa using h2
      cases hcl : cacheLookup cache (getCacheKey c rt) with
      | some rc =>
        have hbuildc : buildableR rc = true := goodCacheB_lookup cache _ rc hg hcl
        obtain ⟨rcc, rcd, hrc, hrd⟩ := buildable_spec rc hbuildc
        have hce : classify_complaint cache c rt (o i) = .ok (rc, cache, false) := by
          simp only [classify_complaint, hcl]
        obtain ⟨newRows, cacheF, hlen, hrec⟩ :=
          ih rest (i + 1) cache (rows ++ [mkRow c rcc rcd rc]) (i + 1) hk1 hg
            hsteps1 hfail1 hmiss1 hdist1
        refine ⟨mkRow c rcc rcd rc :: newRows, cacheF, by simp [hlen], ?_⟩
        simp only [processLoop, hce, buildRow_eq c rcc rcd rc hrc hrd]
        rw [hrec]
        rw [show ((rows ++ [mkRow c rcc rcd rc]) ++ newRows)
            = rows ++ (mkRow c rcc rcd rc :: newRows) by simp]
        rw [show (if k = 0 then i + 1 else i + 1 + k) = i + (k + 1) by
          split <;> omega]
        rw [show (if k + 1 = 0 then p else i + (k + 1)) = i + (k + 1) by
          rw [if_neg (by omega)]]
      | none =>
        have hce : classify_complaint cache c rt (o i)
            = .ok (r0, if b0 then cacheInsert cache (getCacheKey c rt) r0 else cache,
                true) := by
          simp only [classify_complaint, hcl, hresp]
        obtain ⟨rcc, rcd, hrc, hrd⟩ := buildable_spec r0 hbuild
        have hg1 : goodCacheB
            (if b0 then cacheInsert cache (getCacheKey c rt) r0 else cache) = true := by
          cases b0
          · simpa using hg
          · show goodCacheB (cacheInsert cache (getCacheKey c rt) r0) = true
            simp only [goodCacheB, cacheInsert, List.all_cons, Bool.and_eq_true]
            exact ⟨hbuild, hg⟩
        have hmiss2 : cacheLookup
            (if b0 then cacheInsert cache (getCacheKey c rt) r0 else cache)
            (getCacheKey (rest.get ⟨k, hk1⟩) rt) = none := by
          cases b0
          · simpa using hmiss1
          · show cacheLookup (cacheInsert cache (getCacheKey c rt) r0) _ = none
            rw [cacheLookup_insert_ne _ _ _ _ hdist0]
            exact hmiss1
        obtain ⟨newRows, cacheF, hlen, hrec⟩ :=
          ih rest (i + 1) _ (rows ++ [mkRow c rcc rcd r0]) (i + 1) hk1 hg1
            hsteps1 hfail1 hmiss2 hdist1
        refine ⟨mkRow c rcc rcd r0 :: newRows, cacheF, by simp [hlen], ?_⟩
        simp only [processLoop, hce, buildRow_eq c rcc rcd r0 hrc hrd]
        rw [hrec]
        rw [show ((rows ++ [mkRow c rcc rcd r0]) ++ newRows)
            = rows ++ (mkRow c rcc rcd r0 :: newRows) by simp]
        rw [show (if k = 0 then i + 1 else i + 1 + k) = i + (k + 1) by
          split <;> omega]
        rw [show (if k + 1 = 0 then p else i + (k + 1)) = i + (k + 1) by
          rw [if_neg (by omega)]]

/-- C5 counterexample: on a session whose previous run left the counter at 1,
a new run whose very first upstream call raises ends with zero rows retained
but a processed counter of 1, not k = 0 — the counter is never reset and the
claimed equality with k fails at k = 0. -/
theorem c5_counterexample :
    (process_complaints completedSession [] (fun _ _ => .raises) 2 3).1.status = "error"
    ∧ (process_complaints completedSession [] (fun _ _ => .raises) 2 3).1.results.length = 0
    ∧ (process_complaints completedSession [] (fun _ _ => .raises) 2 3).1.processed_rows = 1 :=
  ⟨rfl, rfl, rfl⟩

/-- C5 amended: if the upstream call raises at index k of a run whose first k
steps succeed live (distinct cache keys, k-th key uncached), the session ends
in error with the message and both timestamps recorded and exactly k result
rows retained; the processed counter equals k whenever k is at least 1, and
keeps its pre-run value when k = 0 (it equals k on a first run, whose counter
starts at 0). -/
theorem c5_amended (s : Session) (cache : Cache) (oracle : LLM) (t0 t1 : Nat)
    (k : Nat) (hk : k < s.complaints.length)
    (hg : goodCacheB cache = true)
    (hsteps : ∀ j, j < k → stepGood (oracle j "") = true)
    (hfail : oracle k "" = .raises)
    (hmiss : cacheLookup cache
      (getCacheKey (s.complaints.get ⟨k, hk⟩) s.risk_table) = none)
    (hdist : ∀ j (hj : j < k),
      getCacheKey (s.complaints.get ⟨j, hj.trans hk⟩) s.risk_table
        ≠ getCacheKey (s.complaints.get ⟨k, hk⟩) s.risk_table) :
    (process_complaints s cache oracle t0 t1).1.status = "error"
    ∧ (process_complaints s cache oracle t0 t1).1.results.length = k
    ∧ (process_complaints s cache oracle t0 t1).1.error_message = some .apiError
    ∧ (process_complaints s cache oracle t0 t1).1.start_time = some t0
    ∧ (process_complaints s cache oracle t0 t1).1.end_time = some t1
    ∧ (process_complaints s cache oracle t0 t1).1.processed_rows
        = (if k = 0 then s.processed_rows else k) := by
  obtain ⟨newRows, cacheF, hlen, hrec⟩ :=
    processLoop_fail_at s.risk_table (fun i => oracle i "") k s.complaints 0 cache []
      s.processed_rows hk hg
      (by intro j hj; simpa using hsteps j hj)
      (by simpa using hfail)
      hmiss hdist
  simp only [process_complaints, startRun]
  rw [hrec]
  simp only [finishRun]
  simp [hlen]

/-- Witness for C5 amended: a two-complaint run failing at index 1. -/
theorem c5_amended_witness :
    (process_complaints twoSession [] failingOracle 0 5).1.status = "error"
    ∧ (process_complaints twoSession [] failingOracle 0 5).1.results.length = 1
    ∧ (process_complaints twoSession [] failingOracle 0 5).1.processed_rows = 1 := by
  have h := c5_amended twoSession [] failingOracle 0 5 1 (by decide) rfl
    (by decide) rfl rfl (by decide)
  exact ⟨h.1, h.2.1, by rw [h.2.2.2.2.2]; rfl⟩


/-! ## C10 -/

/-- The feedback loop never adds cache bindings. -/
lemma reprocessLoop_subcache (rt : RiskTable) (o : Nat → Upstream) :
    ∀ (cs : List String) (i : Nat) (cache : Cache) (rows : List ResultRow)
      (p : Nat) (k : String) (r : ClassificationResult),
      cacheLookup (reprocessLoop rt o cs i cache rows p).cache k = some r →
      cacheLookup cache k = some r := by
  intro cs
  induction cs with
  | nil => intro i cache rows p k r h; exact h
  | cons c rest ih =>
    intro i cache rows p k r h
    cases hresp : respOutcomeC (o i) with
    | error e =>
      simp only [reprocessLoop, hresp] at h
      exact cacheLookup_erase_sub _ _ _ _ h
    | ok rb =>
      obtain ⟨r0, b0⟩ := rb
      cases hbr : buildRow c r0 with
      | error e =>
        simp only [reprocessLoop, hresp, hbr] at h
        exact cacheLookup_erase_sub _ _ _ _ h
      | ok row =>
        simp only [reprocessLoop, hresp, hbr] at h
        exact cacheLookup_erase_sub _ _ _ _ (ih _ _ _ _ _ _ h)

/-- After a feedback loop that finished without an exception, no processed
complaint's key is present in the cache any more. -/
lemma reprocessLoop_complete_none (rt : RiskTable) (o : Nat → Upstream) :
    ∀ (cs : List String) (i : Nat) (cache : Cache) (rows : List ResultRow) (p : Nat),
      (reprocessLoop rt o cs i cache rows p).err = none →
      ∀ c ∈ cs, cacheLookup (reprocessLoop rt o cs i cache rows p).cache
        (getCacheKey c rt) = none := by
  intro cs
  induction cs with
  | nil =>
    intro i cache rows p _ c hc
    exact absurd hc (List.not_mem_nil c)
  | cons c rest ih =>
    intro i cache rows p herr c2 hc2
    cases hresp : respOutcomeC (o i) with
    | error e =>
      simp only [reprocessLoop, hresp] at herr
      exact absurd herr (by simp)
    | ok rb =>
      obtain ⟨r0, b0⟩ := rb
      cases hbr : buildRow c r0 with
      | error e =>
        simp only [reprocessLoop, hresp, hbr] at herr
        exact absurd herr (by simp)
      | ok row =>
        simp only [reprocessLoop, hresp, hbr] at herr ⊢
        rcases List.mem_cons.mp hc2 with he | hmem
        · subst he
          cases hfin : cacheLookup (reprocessLoop rt o rest (i + 1)
              (cacheErase cache (getCacheKey c2 rt)) (rows ++ [row]) (i + 1)).cache
              (getCacheKey c2 rt) with
          | none => exact rfl
          | some r =>
            have h2 := reprocessLoop_subcache rt o rest (i + 1) _ _ _ _ _ hfin
            rw [cacheLookup_erase_self] at h2
            exact absurd h2 (by simp)
        · exact ih (i + 1) _ (rows ++ [row]) (i + 1) herr c2 hmem

/-- C10: the shared cache only ever gains entries from successfully parsed
live responses during a normal run (the ER-03 fallback is never written); a
feedback run never writes the cache, and once it completes the cache holds no
entry for any of the session's complaint fingerprints. -/
theorem c10_cache_provenance (cache : Cache) (c : String) (rt : RiskTable)
    (up : Upstream) (s : Session) (fb : String) (oracle : LLM) (t0 t1 : Nat) :
    (∀ r cache2 b, classify_complaint cache c rt up = .ok (r, cache2, b) →
        cache2 = cache ∨ ∃ v, up = .parsed v ∧ parseClassification v = .ok r
          ∧ cache2 = cacheInsert cache (getCacheKey c rt) r)
    ∧ (∀ key r,
        cacheLookup (reprocess_with_feedback s fb cache oracle t0 t1).2 key = some r →
        cacheLookup cache key = some r)
    ∧ ((reprocess_with_feedback s fb cache oracle t0 t1).1.status = "completed" →
        ∀ c2 ∈ s.complaints,
          cacheLookup (reprocess_with_feedback s fb cache oracle t0 t1).2
            (getCacheKey c2 s.risk_table) = none) := by
  refine ⟨?_, ?_, ?_⟩
  · intro r cache2 b h
    cases hcl : cacheLookup cache (getCacheKey c rt) with
    | some rc =>
      have hce : classify_complaint cache c rt up = .ok (rc, cache, false) := by
        simp only [classify_complaint, hcl]
      rw [hce] at h
      simp only [Except.ok.injEq, Prod.mk.injEq] at h
      left
      exact h.2.1.symm
    | none =>
      cases hresp : respOutcomeC up with
      | error e =>
        have hce : classify_complaint cache c rt up = .error e := by
          simp only [classify_complaint, hcl, hresp]
        rw [hce] at h
        exact absurd h (by simp)
      | ok rb =>
        obtain ⟨r0, b0⟩ := rb
        have hce : classify_complaint cache c rt up
            = .ok (r0, if b0 then cacheInsert cache (getCacheKey c rt) r0 else cache,
                true) := by
          simp only [classify_complaint, hcl, hresp]
        rw [hce] at h
        simp only [Except.ok.injEq, Prod.mk.injEq] at h
        obtain ⟨hr0, hcache2, hb⟩ := h
        subst hr0
        cases b0 with
        | false =>
          left
          simpa using hcache2.symm
        | true =>
          cases up with
          | raises => exact absurd hresp (by simp [respOutcomeC])
          | malformed => simp [respOutcomeC] at hresp
          | parsed v =>
            cases hparse : parseClassification v with
            | ok r2 =>
              simp only [respOutcomeC, hparse, Except.ok.injEq, Prod.mk.injEq] at hresp
              right
              refine ⟨v, rfl, ?_, by simpa using hcache2.symm⟩
              rw [hparse, hresp.1]
            | error e =>
              simp only [respOutcomeC, hparse] at hresp
              split at hresp
              · simp only [Except.ok.injEq, Prod.mk.injEq] at hresp
                exact absurd hresp.2 (by simp)
              · exact absurd hresp (by simp)
  · intro key r h
    rw [reprocess_cache_eq] at h
    exact reprocessLoop_subcache _ _ _ _ _ _ _ _ _ h
  · intro hdone c2 hc2
    rw [reprocess_cache_eq]
    have herr : (reprocessLoop s.risk_table
        (fun i => oracle i (feedbackContext fb)) s.complaints 0 cache []
        s.processed_rows).err = none := by
      apply finishRun_completed (startRun s t0) t1
      exact hdone
    exact reprocessLoop_complete_none _ _ _ _ _ _ _ herr c2 hc2

/-- Witness for C10: after a concrete completed feedback run the processed
complaint's fingerprint is absent from the cache. -/
theorem c10_cache_provenance_witness :
    cacheLookup (reprocess_with_feedback completedSession "f" [] constOracle 0 1).2
      (getCacheKey "water leak" completedSession.risk_table) = none := by
  have h := (c10_cache_provenance [] "water leak" completedSession.risk_table
    .malformed completedSession "f" constOracle 0 1).2.2
  exact h rfl "water leak" (by decide)
